import Mathlib

/-!
Verification of the TLSCA gRPC service (`obc-ca/obcca/tlsca.go`).

The file shallowly embeds the Go source: protobuf wire messages become Lean
structures, the external cryptographic libraries (`proto.Marshal`,
`sha3.New384`, `x509.ParsePKIXPublicKey`, `big.Int.UnmarshalText`, the core of
`ecdsa.Verify`) become an abstract environment of pure functions, and each gRPC
method becomes a Lean function returning its outcome together with the final
state of the (mutated) request and a trace of the externally observable events
(bytes hashed, store invocations).
-/

/-- Byte strings, as carried in protobuf `bytes` fields. -/
abbrev Bytes := List Nat

/-- `pb.CryptoType` from the obc-ca protobuf schema: the algorithm tag carried
next to a public key. -/
inductive CryptoType
  | ECDSA
  | RSA
  | DSA
  deriving DecidableEq, Repr

/-- `pb.Identity`: the requesting identity (`req.Id.Id` in the source). -/
structure Identity where
  id : String
  deriving DecidableEq, Repr

/-- `pb.PublicKey`: algorithm tag plus PKIX-encoded raw key bytes. -/
structure PublicKey where
  type : CryptoType
  key : Bytes
  deriving DecidableEq, Repr

/-- The signature message carried in `req.Sig`: the r and s components, each a
text-encoded big integer. -/
structure Sig where
  r : Bytes
  s : Bytes
  deriving DecidableEq, Repr

/-- `pb.Timestamp`: the requested validity (`req.Ts.Seconds`). -/
structure Timestamp where
  seconds : Int
  deriving DecidableEq, Repr

/-- `pb.TLSCertCreateReq`: the create-certificate wire request.  `sig` is an
`Option` because the Go field is a nullable message pointer and the source
itself assigns `req.Sig = nil`. -/
structure TLSCertCreateReq where
  id : Identity
  ts : Timestamp
  pub : PublicKey
  sig : Option Sig
  deriving DecidableEq, Repr

/-- `pb.TLSCertReadReq`: the read-certificate wire request (only the identity
is consulted by the source). -/
structure TLSCertReadReq where
  id : Identity
  deriving DecidableEq, Repr

/-- `pb.TLSCertRevokeReq`: the revoke request; the source never inspects it,
so its payload is left abstract. -/
structure TLSCertRevokeReq where
  payload : Bytes
  deriving DecidableEq, Repr

/-- `pb.Cert`: an opaque certificate blob wrapped into responses. -/
structure Cert where
  cert : Bytes
  deriving DecidableEq, Repr

/-- `pb.TLSCertCreateResp`: the create-certificate wire response. -/
structure TLSCertCreateResp where
  cert : Cert
  deriving DecidableEq, Repr

/-- `pb.CAStatus`: the (never successfully produced) revoke response. -/
structure CAStatus where
  status : Nat
  deriving DecidableEq, Repr

/-- An in-memory `*ecdsa.PublicKey` as produced by PKIX decoding: the order `N`
of the curve's base point (consulted by `ecdsa.Verify`) plus the remaining key
material, left abstract. -/
structure ECDSAPublicKey where
  curveN : Nat
  keyData : Nat
  deriving DecidableEq, Repr

/-- The dynamic result of `x509.ParsePKIXPublicKey`: a key object whose
concrete Go type is only discovered by a type assertion. -/
inductive ParsedPublicKey
  | ecdsa (k : ECDSAPublicKey)
  | rsa (data : Nat)
  | dsa (data : Nat)
  deriving DecidableEq, Repr

/-- `x509.KeyUsage` values that the source mentions; the source always passes
`x509.KeyUsageKeyAgreement`. -/
inductive KeyUsage
  | keyAgreement
  | digitalSignature
  | certSign
  deriving DecidableEq, Repr

/-- The external cryptographic libraries used by `tlsca.go`, as pure functions.
`scanBigInt` returns the value a `big.Int` receiver holds after
`UnmarshalText` on the given bytes — the source discards the error, so only
that residual value matters (Go leaves the receiver at `0` when the text
carries no digits).  `ecdsaVerifyCore` is the curve computation performed by
`ecdsa.Verify` after its sign and range guards pass. -/
structure CryptoEnv where
  scanBigInt : Bytes → Int
  parsePKIX : Bytes → Except String ParsedPublicKey
  protoMarshal : TLSCertCreateReq → Bytes
  sha3_384 : Bytes → Bytes
  ecdsaVerifyCore : ECDSAPublicKey → Bytes → Int → Int → Bool

/-- Go's `ecdsa.Verify` entry guards, from `crypto/ecdsa`: reject unless
`0 < r`, `0 < s`, `r < N` and `s < N`, then run the curve computation. -/
def ecdsaVerifyGo (env : CryptoEnv) (pub : ECDSAPublicKey) (hash : Bytes)
    (r s : Int) : Bool :=
  if r ≤ 0 ∨ s ≤ 0 then false
  else if (pub.curveN : Int) ≤ r ∨ (pub.curveN : Int) ≤ s then false
  else env.ecdsaVerifyCore pub hash r s

/-- Modelled from the spec: the certificate-authority primitive embedded as
`*CA` in `TLSCA` (its implementation, `ca.go`, is not among the shown sources).
Per §6 of the spec it supplies the CA's raw root-certificate bytes and two
store operations, `createCertificate(identity, publicKey, keyUsage,
validitySeconds)` and `readCertificate(identity, keyUsage)`, each returning
certificate bytes or an error. -/
structure TLSCA where
  raw : Bytes
  createCertificate : Identity → ECDSAPublicKey → KeyUsage → Int → Except String Bytes
  readCertificate : Identity → KeyUsage → Except String Bytes

/-- `TLSCAP`: the public gRPC façade, wrapping the shared `TLSCA`. -/
structure TLSCAP where
  tlsca : TLSCA

/-- `TLSCAA`: the administrator gRPC façade, wrapping the shared `TLSCA`. -/
structure TLSCAA where
  tlsca : TLSCA

/-- Externally observable events of one call: bytes written into the SHA3-384
hash, and invocations of the store operations. -/
inductive Event
  | hashed (input : Bytes)
  | storeCreate (id : Identity) (pub : ECDSAPublicKey) (usage : KeyUsage) (seconds : Int)
  | storeRead (id : Identity) (usage : KeyUsage)
  deriving DecidableEq, Repr

/-- Result of a Go method returning `(T, error)`: the success payload, a
returned error, or a runtime panic (nil-pointer dereference or failed type
assertion). -/
inductive Outcome (α : Type)
  | ok (resp : α)
  | fail (msg : String)
  | panic (msg : String)
  deriving DecidableEq, Repr

/-- `TLSCAP.ReadCACertificate` (tlsca.go:82-86): returns the authority's raw
root certificate with a nil error; the `pb.Empty` input is ignored.  The
second component is the event trace (always empty). -/
def TLSCAP.ReadCACertificate (tlscap : TLSCAP) (inp : Unit) :
    Outcome Cert × List Event :=
  (Outcome.ok ⟨tlscap.tlsca.raw⟩, [])

/-- `TLSCAP.CreateCertificate` (tlsca.go:90-124), line by line: read
`req.Id.Id`, save `req.Sig` and null the field on the request itself, scan the
r and s texts into big integers (errors discarded), fail-fast on a non-ECDSA
algorithm tag, PKIX-parse the key bytes, marshal the (signature-nulled)
request, hash it with SHA3-384, type-assert the parsed key to
`*ecdsa.PublicKey` (a Go panic if it is not one), run `ecdsa.Verify`, and on
success delegate to the store and wrap its bytes.  Returns the outcome, the
final state of the request structure, and the event trace. -/
def TLSCAP.CreateCertificate (env : CryptoEnv) (tlscap : TLSCAP)
    (req₀ : TLSCertCreateReq) :
    Outcome TLSCertCreateResp × TLSCertCreateReq × List Event :=
  let id := req₀.id
  match req₀.sig with
  | none =>
      -- `sig := req.Sig; req.Sig = nil; r.UnmarshalText(sig.R)` dereferences
      -- the nil `sig` pointer.
      (Outcome.panic "runtime error: nil pointer dereference", { req₀ with sig := none }, [])
  | some sig =>
      let req : TLSCertCreateReq := { req₀ with sig := none }
      let r := env.scanBigInt sig.r
      let s := env.scanBigInt sig.s
      if req.pub.type ≠ CryptoType.ECDSA then
        (Outcome.fail "unsupported key type", req, [])
      else
        match env.parsePKIX req.pub.key with
        | Except.error e => (Outcome.fail e, req, [])
        | Except.ok pub =>
            let raw := env.protoMarshal req
            let digest := env.sha3_384 raw
            match pub with
            | ParsedPublicKey.ecdsa k =>
                if ecdsaVerifyGo env k digest r s = false then
                  (Outcome.fail "signature does not verify", req, [Event.hashed raw])
                else
                  match tlscap.tlsca.createCertificate id k KeyUsage.keyAgreement req.ts.seconds with
                  | Except.error e =>
                      (Outcome.fail e, req,
                        [Event.hashed raw,
                         Event.storeCreate id k KeyUsage.keyAgreement req.ts.seconds])
                  | Except.ok raw2 =>
                      (Outcome.ok ⟨⟨raw2⟩⟩, req,
                        [Event.hashed raw,
                         Event.storeCreate id k KeyUsage.keyAgreement req.ts.seconds])
            | _ =>
                -- `pub.(*ecdsa.PublicKey)` on a non-ECDSA key object panics;
                -- the hash bytes were already written.
                (Outcome.panic "interface conversion: not an ECDSA public key",
                  req, [Event.hashed raw])

/-- `TLSCAP.ReadCertificate` (tlsca.go:128-137): delegate to the store's
lookup with the request's identity and `x509.KeyUsageKeyAgreement`, wrap the
bytes on success, propagate the error on failure. -/
def TLSCAP.ReadCertificate (tlscap : TLSCAP) (req : TLSCertReadReq) :
    Outcome Cert × List Event :=
  match tlscap.tlsca.readCertificate req.id KeyUsage.keyAgreement with
  | Except.error e => (Outcome.fail e, [Event.storeRead req.id KeyUsage.keyAgreement])
  | Except.ok raw => (Outcome.ok ⟨raw⟩, [Event.storeRead req.id KeyUsage.keyAgreement])

/-- `TLSCAP.RevokeCertificate` (tlsca.go:141-145): unconditionally a fixed
error, no payload, no events. -/
def TLSCAP.RevokeCertificate (tlscap : TLSCAP) (req : TLSCertRevokeReq) :
    Outcome CAStatus × List Event :=
  (Outcome.fail "not yet implemented", [])

/-- `TLSCAA.RevokeCertificate` (tlsca.go:149-153): unconditionally the same
fixed error, no payload, no events. -/
def TLSCAA.RevokeCertificate (tlscaa : TLSCAA) (req : TLSCertRevokeReq) :
    Outcome CAStatus × List Event :=
  (Outcome.fail "not yet implemented", [])

/-! ## Concrete instances for evaluating the embedding -/

/-- A concrete in-memory ECDSA key used to evaluate the embedding on closed
inputs (a small stand-in curve order). -/
def demoKey : ECDSAPublicKey := { curveN := 97, keyData := 5 }

/-- A concrete cryptographic environment for closed evaluations: byte string
`[50]` ("2") scans to 2, `[51]` ("3") to 3, anything else leaves the receiver
at 0, as Go does for digitless text; key bytes `[1]` PKIX-parse to the demo
ECDSA key and `[2]` to an RSA key; marshalling, hashing and the verify core
are simple concrete functions. -/
def demoEnv : CryptoEnv where
  scanBigInt := fun b =>
    match b with
    | [50] => 2
    | [51] => 3
    | _ => 0
  parsePKIX := fun b =>
    match b with
    | [1] => Except.ok (ParsedPublicKey.ecdsa demoKey)
    | [2] => Except.ok (ParsedPublicKey.rsa 7)
    | _ => Except.error "asn1: structure error"
  protoMarshal := fun req => req.pub.key ++ [req.sig.elim 0 fun _ => 1]
  sha3_384 := fun b => 84 :: b
  ecdsaVerifyCore := fun _ _ r s => r == 2 && s == 3

/-- A concrete authority whose store always succeeds with fixed bytes. -/
def demoTLSCA : TLSCA where
  raw := [9, 9]
  createCertificate := fun _ _ _ _ => Except.ok [7, 7, 7]
  readCertificate := fun _ _ => Except.ok [8, 8]

/-- The public façade over the demo authority. -/
def demoTLSCAP : TLSCAP := ⟨demoTLSCA⟩

/-- The administrative façade over the demo authority. -/
def demoTLSCAA : TLSCAA := ⟨demoTLSCA⟩

/-- A well-formed request that passes every check under `demoEnv`. -/
def demoReq : TLSCertCreateReq where
  id := ⟨"alice"⟩
  ts := ⟨3600⟩
  pub := { type := CryptoType.ECDSA, key := [1] }
  sig := some { r := [50], s := [51] }

/-- `demoReq` with a non-numeric r component (`[120]`, the letter "x"). -/
def demoReqBadR : TLSCertCreateReq := { demoReq with sig := some { r := [120], s := [51] } }

/-- `demoReq` with PKIX bytes that decode to an RSA key while the algorithm
tag still claims ECDSA. -/
def demoReqRSAKey : TLSCertCreateReq := { demoReq with pub := { type := CryptoType.ECDSA, key := [2] } }

/-- `demoReq` with a non-ECDSA algorithm tag. -/
def demoReqBadType : TLSCertCreateReq := { demoReq with pub := { type := CryptoType.RSA, key := [1] } }

/-! ## Helper definitions and lemmas -/

/-- Whether an event is a store `createCertificate` invocation. -/
def Event.isStoreCreate : Event → Bool
  | Event.storeCreate _ _ _ _ => true
  | _ => false

/-- Canonical unfolding of `TLSCAP.CreateCertificate` on a request that passes
the key-type check and whose key bytes PKIX-parse to an ECDSA key. -/
theorem createCertificate_ecdsa_unfold (env : CryptoEnv) (tlscap : TLSCAP)
    (req : TLSCertCreateReq) (σ : Sig) (k : ECDSAPublicKey)
    (hs : req.sig = some σ)
    (ht : req.pub.type = CryptoType.ECDSA)
    (hp : env.parsePKIX req.pub.key = Except.ok (ParsedPublicKey.ecdsa k)) :
    TLSCAP.CreateCertificate env tlscap req =
      (if ecdsaVerifyGo env k (env.sha3_384 (env.protoMarshal { req with sig := none }))
            (env.scanBigInt σ.r) (env.scanBigInt σ.s) = false then
         (Outcome.fail "signature does not verify", { req with sig := none },
           [Event.hashed (env.protoMarshal { req with sig := none })])
       else
         match tlscap.tlsca.createCertificate req.id k KeyUsage.keyAgreement req.ts.seconds with
         | Except.error e =>
             (Outcome.fail e, { req with sig := none },
               [Event.hashed (env.protoMarshal { req with sig := none }),
                Event.storeCreate req.id k KeyUsage.keyAgreement req.ts.seconds])
         | Except.ok raw2 =>
             (Outcome.ok ⟨⟨raw2⟩⟩, { req with sig := none },
               [Event.hashed (env.protoMarshal { req with sig := none }),
                Event.storeCreate req.id k KeyUsage.keyAgreement req.ts.seconds])) := by
  unfold TLSCAP.CreateCertificate
  rw [hs]
  simp only [ht, ne_eq, not_true_eq_false, if_false, hp, ite_not]

/-- Head of the event trace on the ECDSA path: the bytes hashed are exactly
the wire serialization of the signature-nulled request. -/
theorem createCertificate_hashes_signull (env : CryptoEnv) (tlscap : TLSCAP)
    (req : TLSCertCreateReq) (σ : Sig) (k : ECDSAPublicKey)
    (hs : req.sig = some σ)
    (ht : req.pub.type = CryptoType.ECDSA)
    (hp : env.parsePKIX req.pub.key = Except.ok (ParsedPublicKey.ecdsa k)) :
    (TLSCAP.CreateCertificate env tlscap req).2.2.head? =
      some (Event.hashed (env.protoMarshal { req with sig := none })) := by
  rw [createCertificate_ecdsa_unfold env tlscap req σ k hs ht hp]
  split
  · rfl
  · split <;> rfl

/-- C1: on a request that passes the key-type check and whose public-key
bytes parse as an ECDSA key, the bytes hashed are exactly the protobuf
serialization of the signature-nulled request (hence independent of the
signature field), the digest is the SHA3-384 hash of them, the scanned
(r, s) pair is ECDSA-verified against that digest with the parsed key, the
request is rejected with "signature does not verify" exactly when that
verification fails, and it is accepted only when it succeeds. -/
theorem createCertificate_verify_pipeline (env : CryptoEnv) (tlscap : TLSCAP)
    (req : TLSCertCreateReq) (σ : Sig) (k : ECDSAPublicKey)
    (hs : req.sig = some σ)
    (ht : req.pub.type = CryptoType.ECDSA)
    (hp : env.parsePKIX req.pub.key = Except.ok (ParsedPublicKey.ecdsa k)) :
    (TLSCAP.CreateCertificate env tlscap req).2.2.head? =
      some (Event.hashed (env.protoMarshal { req with sig := none }))
    ∧ (ecdsaVerifyGo env k (env.sha3_384 (env.protoMarshal { req with sig := none }))
          (env.scanBigInt σ.r) (env.scanBigInt σ.s) = false →
        (TLSCAP.CreateCertificate env tlscap req).1 = Outcome.fail "signature does not verify")
    ∧ (∀ resp, (TLSCAP.CreateCertificate env tlscap req).1 = Outcome.ok resp →
        ecdsaVerifyGo env k (env.sha3_384 (env.protoMarshal { req with sig := none }))
          (env.scanBigInt σ.r) (env.scanBigInt σ.s) = true)
    ∧ (∀ σ' : Sig,
        (TLSCAP.CreateCertificate env tlscap { req with sig := some σ' }).2.2.head? =
          some (Event.hashed (env.protoMarshal { req with sig := none }))) := by
  refine ⟨createCertificate_hashes_signull env tlscap req σ k hs ht hp, ?_, ?_, ?_⟩
  · intro hv
    rw [createCertificate_ecdsa_unfold env tlscap req σ k hs ht hp, if_pos hv]
  · intro resp hok
    rw [createCertificate_ecdsa_unfold env tlscap req σ k hs ht hp] at hok
    by_contra hne
    rw [Bool.not_eq_true] at hne
    rw [if_pos hne] at hok
    exact Outcome.noConfusion hok
  · intro σ'
    exact createCertificate_hashes_signull env tlscap { req with sig := some σ' } σ' k rfl ht hp

/-- Witness for C1: the pipeline theorem applied to the concrete passing
request under the demo environment, all hypotheses discharged by `rfl`. -/
theorem createCertificate_verify_pipeline_witness :
    demoReq.sig = some ⟨[50], [51]⟩
    ∧ demoReq.pub.type = CryptoType.ECDSA
    ∧ demoEnv.parsePKIX demoReq.pub.key = Except.ok (ParsedPublicKey.ecdsa demoKey)
    ∧ ((TLSCAP.CreateCertificate demoEnv demoTLSCAP demoReq).2.2.head? =
        some (Event.hashed (demoEnv.protoMarshal { demoReq with sig := none }))
      ∧ (ecdsaVerifyGo demoEnv demoKey
            (demoEnv.sha3_384 (demoEnv.protoMarshal { demoReq with sig := none }))
            (demoEnv.scanBigInt (Sig.r ⟨[50], [51]⟩)) (demoEnv.scanBigInt (Sig.s ⟨[50], [51]⟩)) = false →
          (TLSCAP.CreateCertificate demoEnv demoTLSCAP demoReq).1 =
            Outcome.fail "signature does not verify")
      ∧ (∀ resp, (TLSCAP.CreateCertificate demoEnv demoTLSCAP demoReq).1 = Outcome.ok resp →
          ecdsaVerifyGo demoEnv demoKey
            (demoEnv.sha3_384 (demoEnv.protoMarshal { demoReq with sig := none }))
            (demoEnv.scanBigInt (Sig.r ⟨[50], [51]⟩)) (demoEnv.scanBigInt (Sig.s ⟨[50], [51]⟩)) = true)
      ∧ (∀ σ' : Sig,
          (TLSCAP.CreateCertificate demoEnv demoTLSCAP { demoReq with sig := some σ' }).2.2.head? =
            some (Event.hashed (demoEnv.protoMarshal { demoReq with sig := none })))) :=
  ⟨rfl, rfl, rfl,
    createCertificate_verify_pipeline demoEnv demoTLSCAP demoReq ⟨[50], [51]⟩ demoKey rfl rfl rfl⟩

/-- Unfolding of `TLSCAP.CreateCertificate` on a request whose signature
field is nil: the nil `sig` pointer is dereferenced. -/
theorem createCertificate_signil_unfold (env : CryptoEnv) (tlscap : TLSCAP)
    (req : TLSCertCreateReq) (hσ : req.sig = none) :
    TLSCAP.CreateCertificate env tlscap req =
      (Outcome.panic "runtime error: nil pointer dereference", { req with sig := none }, []) := by
  unfold TLSCAP.CreateCertificate
  rw [hσ]

/-- Unfolding of `TLSCAP.CreateCertificate` on a non-ECDSA algorithm tag. -/
theorem createCertificate_badtype_unfold (env : CryptoEnv) (tlscap : TLSCAP)
    (req : TLSCertCreateReq) (σ : Sig) (hσ : req.sig = some σ)
    (ht : req.pub.type ≠ CryptoType.ECDSA) :
    TLSCAP.CreateCertificate env tlscap req =
      (Outcome.fail "unsupported key type", { req with sig := none }, []) := by
  unfold TLSCAP.CreateCertificate
  rw [hσ]
  simp only [ht, ne_eq, not_false_eq_true, if_true]

/-- Unfolding of `TLSCAP.CreateCertificate` when PKIX parsing fails. -/
theorem createCertificate_parse_error_unfold (env : CryptoEnv) (tlscap : TLSCAP)
    (req : TLSCertCreateReq) (σ : Sig) (e : String) (hσ : req.sig = some σ)
    (ht : req.pub.type = CryptoType.ECDSA)
    (hp : env.parsePKIX req.pub.key = Except.error e) :
    TLSCAP.CreateCertificate env tlscap req =
      (Outcome.fail e, { req with sig := none }, []) := by
  unfold TLSCAP.CreateCertificate
  rw [hσ]
  simp only [ht, ne_eq, not_true_eq_false, if_false, hp]

/-- Unfolding of `TLSCAP.CreateCertificate` when PKIX parsing yields a key
that is not an ECDSA key: the Go type assertion panics, after hashing. -/
theorem createCertificate_cast_panic_unfold (env : CryptoEnv) (tlscap : TLSCAP)
    (req : TLSCertCreateReq) (σ : Sig) (pub : ParsedPublicKey) (hσ : req.sig = some σ)
    (ht : req.pub.type = CryptoType.ECDSA)
    (hp : env.parsePKIX req.pub.key = Except.ok pub)
    (hk : ∀ k, pub ≠ ParsedPublicKey.ecdsa k) :
    TLSCAP.CreateCertificate env tlscap req =
      (Outcome.panic "interface conversion: not an ECDSA public key",
        { req with sig := none },
        [Event.hashed (env.protoMarshal { req with sig := none })]) := by
  unfold TLSCAP.CreateCertificate
  rw [hσ]
  simp only [ht, ne_eq, not_true_eq_false, if_false, hp]

/-- Any trace event that is a store-create invocation can only arise on the
fully successful verification path. -/
theorem createCertificate_store_implies_verified (env : CryptoEnv) (tlscap : TLSCAP)
    (req : TLSCertCreateReq)
    (h : ((TLSCAP.CreateCertificate env tlscap req).2.2).any Event.isStoreCreate = true) :
    ∃ σ k, req.sig = some σ ∧ req.pub.type = CryptoType.ECDSA
      ∧ env.parsePKIX req.pub.key = Except.ok (ParsedPublicKey.ecdsa k)
      ∧ ecdsaVerifyGo env k (env.sha3_384 (env.protoMarshal { req with sig := none }))
          (env.scanBigInt σ.r) (env.scanBigInt σ.s) = true := by
  rcases hσ : req.sig with _ | σ
  · rw [createCertificate_signil_unfold env tlscap req hσ] at h
    simp [Event.isStoreCreate] at h
  · refine ⟨σ, ?_⟩
    by_cases ht : req.pub.type = CryptoType.ECDSA
    case neg =>
      rw [createCertificate_badtype_unfold env tlscap req σ hσ ht] at h
      simp [Event.isStoreCreate] at h
    case pos =>
      rcases hp : env.parsePKIX req.pub.key with e | pub
      · rw [createCertificate_parse_error_unfold env tlscap req σ e hσ ht hp] at h
        simp [Event.isStoreCreate] at h
      · cases pub with
        | rsa d =>
            rw [createCertificate_cast_panic_unfold env tlscap req σ _ hσ ht hp
              (fun k hk => ParsedPublicKey.noConfusion hk)] at h
            simp [Event.isStoreCreate] at h
        | dsa d =>
            rw [createCertificate_cast_panic_unfold env tlscap req σ _ hσ ht hp
              (fun k hk => ParsedPublicKey.noConfusion hk)] at h
            simp [Event.isStoreCreate] at h
        | ecdsa k =>
            refine ⟨k, rfl, ht, rfl, ?_⟩
            cases hv : ecdsaVerifyGo env k
                (env.sha3_384 (env.protoMarshal { req with sig := none }))
                (env.scanBigInt σ.r) (env.scanBigInt σ.s) with
            | true => rfl
            | false =>
                rw [createCertificate_ecdsa_unfold env tlscap req σ k hσ ht hp] at h
                simp [hv, Event.isStoreCreate] at h

/-! ## Claim theorems -/

/-- C2: on any request on which decoding or signature verification fails
(non-ECDSA algorithm tag, unparsable public key, or a signature that does not
verify), the store's `createCertificate` is never invoked: the event trace
contains no store-create event, so a failed request causes no issuance side
effect. -/
theorem createCertificate_failure_no_store (env : CryptoEnv) (tlscap : TLSCAP)
    (req : TLSCertCreateReq) (σ : Sig) (hσ : req.sig = some σ)
    (hfail : req.pub.type ≠ CryptoType.ECDSA
      ∨ (∃ e, env.parsePKIX req.pub.key = Except.error e)
      ∨ (∃ k, env.parsePKIX req.pub.key = Except.ok (ParsedPublicKey.ecdsa k)
          ∧ ecdsaVerifyGo env k (env.sha3_384 (env.protoMarshal { req with sig := none }))
              (env.scanBigInt σ.r) (env.scanBigInt σ.s) = false)) :
    ((TLSCAP.CreateCertificate env tlscap req).2.2).any Event.isStoreCreate = false := by
  cases hb : ((TLSCAP.CreateCertificate env tlscap req).2.2).any Event.isStoreCreate with
  | false => rfl
  | true =>
      obtain ⟨σ', k', hσ', ht', hp', hv'⟩ :=
        createCertificate_store_implies_verified env tlscap req hb
      rcases hfail with ht | ⟨e, hp⟩ | ⟨k, hp, hv⟩
      · exact absurd ht' ht
      · rw [hp] at hp'
        exact Except.noConfusion hp'
      · rw [hσ] at hσ'
        injection hσ' with hσeq
        subst hσeq
        rw [hp] at hp'
        injection hp' with hk1
        injection hk1 with hk2
        subst hk2
        rw [hv'] at hv
        exact Bool.noConfusion hv

/-- Witness for C2: the no-store theorem applied to the concrete request with
a non-ECDSA algorithm tag. -/
theorem createCertificate_failure_no_store_witness :
    demoReqBadType.sig = some ⟨[50], [51]⟩
    ∧ demoReqBadType.pub.type ≠ CryptoType.ECDSA
    ∧ ((TLSCAP.CreateCertificate demoEnv demoTLSCAP demoReqBadType).2.2).any Event.isStoreCreate
        = false :=
  ⟨rfl, by decide,
    createCertificate_failure_no_store demoEnv demoTLSCAP demoReqBadType ⟨[50], [51]⟩ rfl
      (Or.inl (by decide))⟩

/-- C3: a request whose algorithm tag is not ECDSA is rejected with
"unsupported key type", with an empty event trace (nothing is hashed, no
verification is attempted, no store call happens), and that error string is
distinct from the "signature does not verify" one. -/
theorem createCertificate_badtype_rejected (env : CryptoEnv) (tlscap : TLSCAP)
    (req : TLSCertCreateReq) (σ : Sig) (hσ : req.sig = some σ)
    (ht : req.pub.type ≠ CryptoType.ECDSA) :
    (TLSCAP.CreateCertificate env tlscap req).1 = Outcome.fail "unsupported key type"
    ∧ (TLSCAP.CreateCertificate env tlscap req).2.2 = []
    ∧ ("unsupported key type" : String) ≠ "signature does not verify" := by
  rw [createCertificate_badtype_unfold env tlscap req σ hσ ht]
  exact ⟨rfl, rfl, by decide⟩

/-- Witness for C3: the fail-fast theorem applied to the concrete RSA-tagged
request. -/
theorem createCertificate_badtype_rejected_witness :
    demoReqBadType.sig = some ⟨[50], [51]⟩
    ∧ demoReqBadType.pub.type ≠ CryptoType.ECDSA
    ∧ ((TLSCAP.CreateCertificate demoEnv demoTLSCAP demoReqBadType).1
          = Outcome.fail "unsupported key type"
      ∧ (TLSCAP.CreateCertificate demoEnv demoTLSCAP demoReqBadType).2.2 = []
      ∧ ("unsupported key type" : String) ≠ "signature does not verify") :=
  ⟨rfl, by decide,
    createCertificate_badtype_rejected demoEnv demoTLSCAP demoReqBadType ⟨[50], [51]⟩ rfl
      (by decide)⟩

/-- C4: when a signature component scans to 0 — what Go's
`big.Int.UnmarshalText` leaves in the receiver on a non-numeric string, the
error being discarded by the source — but the key type and public key are
valid, the call fails with "signature does not verify" (no crash), and the
trace shows the request was still serialized and hashed before the failure:
the parse failure does not short-circuit before hashing. -/
theorem createCertificate_badscan_fails_after_hash (env : CryptoEnv) (tlscap : TLSCAP)
    (req : TLSCertCreateReq) (σ : Sig) (k : ECDSAPublicKey)
    (hσ : req.sig = some σ)
    (ht : req.pub.type = CryptoType.ECDSA)
    (hp : env.parsePKIX req.pub.key = Except.ok (ParsedPublicKey.ecdsa k))
    (hr : env.scanBigInt σ.r = 0 ∨ env.scanBigInt σ.s = 0) :
    (TLSCAP.CreateCertificate env tlscap req).1 = Outcome.fail "signature does not verify"
    ∧ (TLSCAP.CreateCertificate env tlscap req).2.2
        = [Event.hashed (env.protoMarshal { req with sig := none })] := by
  have hv : ecdsaVerifyGo env k (env.sha3_384 (env.protoMarshal { req with sig := none }))
      (env.scanBigInt σ.r) (env.scanBigInt σ.s) = false := by
    rcases hr with h0 | h0 <;> simp [ecdsaVerifyGo, h0]
  rw [createCertificate_ecdsa_unfold env tlscap req σ k hσ ht hp, if_pos hv]
  exact ⟨rfl, rfl⟩

/-- Witness for C4: the theorem applied to the concrete request whose r text
is the non-numeric byte string `[120]` ("x"). -/
theorem createCertificate_badscan_fails_after_hash_witness :
    demoReqBadR.sig = some ⟨[120], [51]⟩
    ∧ demoEnv.scanBigInt (Sig.r ⟨[120], [51]⟩) = 0
    ∧ ((TLSCAP.CreateCertificate demoEnv demoTLSCAP demoReqBadR).1
          = Outcome.fail "signature does not verify"
      ∧ (TLSCAP.CreateCertificate demoEnv demoTLSCAP demoReqBadR).2.2
          = [Event.hashed (demoEnv.protoMarshal { demoReqBadR with sig := none })]) :=
  ⟨rfl, rfl,
    createCertificate_badscan_fails_after_hash demoEnv demoTLSCAP demoReqBadR ⟨[120], [51]⟩
      demoKey rfl rfl rfl (Or.inl rfl)⟩

/-- C5 counterexample: on the concrete request `demoReq`, whose signature
field is populated, the request structure after the call does NOT contain its
original signature — the source nulls `req.Sig` on the received structure and
never restores it. -/
theorem createCertificate_sig_not_preserved_cex :
    (TLSCAP.CreateCertificate demoEnv demoTLSCAP demoReq).2.1.sig ≠ demoReq.sig := by
  decide

/-- C5 amended: `CreateCertificate` nulls the signature field of the request
structure itself, in place: for every request, the request structure after
the call is exactly the received one with `sig` set to nil; the original
signature is saved in a local for verification but never written back. -/
theorem createCertificate_nulls_sig_in_place (env : CryptoEnv) (tlscap : TLSCAP)
    (req : TLSCertCreateReq) :
    (TLSCAP.CreateCertificate env tlscap req).2.1 = { req with sig := none } := by
  rcases hσ : req.sig with _ | σ
  · rw [createCertificate_signil_unfold env tlscap req hσ]
  · by_cases ht : req.pub.type = CryptoType.ECDSA
    case neg => rw [createCertificate_badtype_unfold env tlscap req σ hσ ht]
    case pos =>
      rcases hp : env.parsePKIX req.pub.key with e | pub
      · rw [createCertificate_parse_error_unfold env tlscap req σ e hσ ht hp]
      · cases pub with
        | ecdsa k =>
            rw [createCertificate_ecdsa_unfold env tlscap req σ k hσ ht hp]
            split
            · rfl
            · split <;> rfl
        | rsa d =>
            rw [createCertificate_cast_panic_unfold env tlscap req σ _ hσ ht hp
              (fun k hk => ParsedPublicKey.noConfusion hk)]
        | dsa d =>
            rw [createCertificate_cast_panic_unfold env tlscap req σ _ hσ ht hp
              (fun k hk => ParsedPublicKey.noConfusion hk)]

/-- C6: on a request that passes verification and whose store call succeeds,
the store is invoked with the request's identity, the decoded public key, the
key-agreement usage flag and the request's validity seconds, and the bytes
the store returns are wrapped unmodified into the response envelope. -/
theorem createCertificate_success_delegates (env : CryptoEnv) (tlscap : TLSCAP)
    (req : TLSCertCreateReq) (σ : Sig) (k : ECDSAPublicKey) (certBytes : Bytes)
    (hσ : req.sig = some σ)
    (ht : req.pub.type = CryptoType.ECDSA)
    (hp : env.parsePKIX req.pub.key = Except.ok (ParsedPublicKey.ecdsa k))
    (hv : ecdsaVerifyGo env k (env.sha3_384 (env.protoMarshal { req with sig := none }))
        (env.scanBigInt σ.r) (env.scanBigInt σ.s) = true)
    (hstore : tlscap.tlsca.createCertificate req.id k KeyUsage.keyAgreement req.ts.seconds
        = Except.ok certBytes) :
    (TLSCAP.CreateCertificate env tlscap req).1 = Outcome.ok ⟨⟨certBytes⟩⟩
    ∧ (TLSCAP.CreateCertificate env tlscap req).2.2
        = [Event.hashed (env.protoMarshal { req with sig := none }),
           Event.storeCreate req.id k KeyUsage.keyAgreement req.ts.seconds] := by
  have hne : ¬ (ecdsaVerifyGo env k (env.sha3_384 (env.protoMarshal { req with sig := none }))
      (env.scanBigInt σ.r) (env.scanBigInt σ.s) = false) := by
    rw [hv]
    decide
  rw [createCertificate_ecdsa_unfold env tlscap req σ k hσ ht hp, if_neg hne, hstore]
  exact ⟨rfl, rfl⟩

/-- Witness for C6: the delegation theorem applied to the concrete passing
request; the demo store returns `[7, 7, 7]` and the response wraps exactly
those bytes. -/
theorem createCertificate_success_delegates_witness :
    demoReq.sig = some ⟨[50], [51]⟩
    ∧ ((TLSCAP.CreateCertificate demoEnv demoTLSCAP demoReq).1 = Outcome.ok ⟨⟨[7, 7, 7]⟩⟩
      ∧ (TLSCAP.CreateCertificate demoEnv demoTLSCAP demoReq).2.2
          = [Event.hashed (demoEnv.protoMarshal { demoReq with sig := none }),
             Event.storeCreate demoReq.id demoKey KeyUsage.keyAgreement demoReq.ts.seconds]) :=
  ⟨rfl,
    createCertificate_success_delegates demoEnv demoTLSCAP demoReq ⟨[50], [51]⟩ demoKey [7, 7, 7]
      rfl rfl rfl (by decide) rfl⟩

/-- C7: `ReadCertificate` performs no signature verification (it consults no
cryptographic primitive and its trace is exactly one store lookup with the
request's identity and the key-agreement usage class); on store success the
bytes are wrapped into the response, on store failure the store's error is
propagated verbatim. -/
theorem readCertificate_delegates (tlscap : TLSCAP) (req : TLSCertReadReq) :
    (TLSCAP.ReadCertificate tlscap req).2 = [Event.storeRead req.id KeyUsage.keyAgreement]
    ∧ (∀ b, tlscap.tlsca.readCertificate req.id KeyUsage.keyAgreement = Except.ok b →
        (TLSCAP.ReadCertificate tlscap req).1 = Outcome.ok ⟨b⟩)
    ∧ (∀ e, tlscap.tlsca.readCertificate req.id KeyUsage.keyAgreement = Except.error e →
        (TLSCAP.ReadCertificate tlscap req).1 = Outcome.fail e) := by
  unfold TLSCAP.ReadCertificate
  refine ⟨?_, ?_, ?_⟩
  · cases h : tlscap.tlsca.readCertificate req.id KeyUsage.keyAgreement <;> rfl
  · intro b hb
    rw [hb]
  · intro e he
    rw [he]

/-- Witness for C7: the delegation theorem applied to a concrete read request
against the demo store, whose lookup returns `[8, 8]`. -/
theorem readCertificate_delegates_witness :
    (TLSCAP.ReadCertificate demoTLSCAP ⟨⟨"bob"⟩⟩).2
        = [Event.storeRead ⟨"bob"⟩ KeyUsage.keyAgreement]
    ∧ (TLSCAP.ReadCertificate demoTLSCAP ⟨⟨"bob"⟩⟩).1 = Outcome.ok ⟨[8, 8]⟩ :=
  ⟨(readCertificate_delegates demoTLSCAP ⟨⟨"bob"⟩⟩).1,
   (readCertificate_delegates demoTLSCAP ⟨⟨"bob"⟩⟩).2.1 [8, 8] rfl⟩

/-- C8: `RevokeCertificate` on either façade, on any request, returns the
same fixed "not yet implemented" error with no result payload and an empty
event trace (no store invocation), and the two façades' results coincide. -/
theorem revokeCertificate_not_implemented (tlscap : TLSCAP) (tlscaa : TLSCAA)
    (req : TLSCertRevokeReq) :
    TLSCAP.RevokeCertificate tlscap req = (Outcome.fail "not yet implemented", [])
    ∧ TLSCAA.RevokeCertificate tlscaa req = (Outcome.fail "not yet implemented", [])
    ∧ TLSCAP.RevokeCertificate tlscap req = TLSCAA.RevokeCertificate tlscaa req :=
  ⟨rfl, rfl, rfl⟩

/-- C9: on the concrete request whose algorithm tag is ECDSA but whose key
bytes PKIX-parse to an RSA key, the source's unchecked type assertion
`pub.(*ecdsa.PublicKey)` fails at runtime: the call panics instead of
returning an error. -/
theorem createCertificate_rsa_parsed_key_panics :
    demoReqRSAKey.pub.type = CryptoType.ECDSA
    ∧ demoEnv.parsePKIX demoReqRSAKey.pub.key = Except.ok (ParsedPublicKey.rsa 7)
    ∧ (TLSCAP.CreateCertificate demoEnv demoTLSCAP demoReqRSAKey).1
        = Outcome.panic "interface conversion: not an ECDSA public key" :=
  ⟨rfl, rfl, rfl⟩

/-- C10: `ReadCACertificate` always returns the authority's raw
root-certificate bytes with a nil error and an empty event trace; it has no
failure path and never inspects its input. -/
theorem readCACertificate_returns_root (tlscap : TLSCAP) (inp : Unit) :
    TLSCAP.ReadCACertificate tlscap inp = (Outcome.ok ⟨tlscap.tlsca.raw⟩, []) :=
  rfl
